import Mathlib

/-!
# Verification of the modem_exporter collection pipeline

A shallow embedding of `src/main.go` of `tete1030/modem_exporter`: the
pull-path Prometheus collector (`Exporter.Collect`) and the push-path
line-protocol handler (`influxHandler`).  The external modem-management
backend is modelled as an environment structure recording, for every read
the source performs, either the value obtained or the fact that the read
failed (`Option`), and a `Bool` for calls whose only observable outcome is
success or failure.  Side-effecting calls (`Enable`, `Disconnect`,
`DeleteBearer`, `Connect`, signal `Setup`) are recorded in an operation
trace.  `float64` payloads that the source merely copies through
(signal levels, counters) are modelled as integers; no property proved
here depends on floating-point arithmetic.
-/

namespace ModemExporter

/-! ## Modem state enumerations

`MMState` models the library's `MmModemState` enumeration: integer codes
as in the ModemManager API (Failed = -1 through Connected = 11, a total
order with Registered = 8 < Connected = 11) and the `String()` rendering
used by the string comparisons in `Collect`. -/

inductive MMState where
  | failed
  | unknownSt
  | initing
  | locked
  | disabled
  | disabling
  | enabling
  | enabled
  | searching
  | registered
  | disconnecting
  | connecting
  | connected
deriving DecidableEq, Repr

def MMState.val : MMState → Int
  | .failed => -1
  | .unknownSt => 0
  | .initing => 1
  | .locked => 2
  | .disabled => 3
  | .disabling => 4
  | .enabling => 5
  | .enabled => 6
  | .searching => 7
  | .registered => 8
  | .disconnecting => 9
  | .connecting => 10
  | .connected => 11

def MMState.str : MMState → String
  | .failed => "Failed"
  | .unknownSt => "Unknown"
  | .initing => "Initializing"
  | .locked => "Locked"
  | .disabled => "Disabled"
  | .disabling => "Disabling"
  | .enabling => "Enabling"
  | .enabled => "Enabled"
  | .searching => "Searching"
  | .registered => "Registered"
  | .disconnecting => "Disconnecting"
  | .connecting => "Connecting"
  | .connected => "Connected"

/-- `MmModem3gppRegistrationState` variants used by the source: the pull
path compares `regState.String() == "Roaming"`, the push path compares
`regState == MmModem3gppRegistrationStateRoaming`. -/
inductive RegState where
  | idle
  | home
  | searchingReg
  | denied
  | unknownReg
  | roaming
deriving DecidableEq, Repr

def RegState.str : RegState → String
  | .idle => "Idle"
  | .home => "Home"
  | .searchingReg => "Searching"
  | .denied => "Denied"
  | .unknownReg => "Unknown"
  | .roaming => "Roaming"

/-! ## Go `strconv` parsing, as used by the source

`Collect` parses the location triple with `strconv.ParseInt(s, 16, 64)`
and the operator code with `strconv.ParseFloat(s, 64)`; `influxHandler`
parses the operator code with `strconv.ParseInt(s, 10, 32)`. -/

/-- Value of one hexadecimal digit character (Go accepts both cases). -/
def hexDigitVal? (c : Char) : Option Nat :=
  if '0' ≤ c ∧ c ≤ '9' then some (c.toNat - '0'.toNat)
  else if 'a' ≤ c ∧ c ≤ 'f' then some (c.toNat - 'a'.toNat + 10)
  else if 'A' ≤ c ∧ c ≤ 'F' then some (c.toNat - 'A'.toNat + 10)
  else none

/-- Value of one decimal digit character. -/
def decDigitVal? (c : Char) : Option Nat :=
  if '0' ≤ c ∧ c ≤ '9' then some (c.toNat - '0'.toNat) else none

/-- Left-to-right accumulation of a digit string in the given base,
failing on the first character that is not a digit of that base. -/
def digitsAccum (digit : Char → Option Nat) (base : Nat) :
    Nat → List Char → Option Nat
  | acc, [] => some acc
  | acc, c :: cs =>
    match digit c with
    | some d => digitsAccum digit base (base * acc + d) cs
    | none => none

/-- Numeric value of a non-empty all-hex-digit character list. -/
def hexDigitsVal? : List Char → Option Nat
  | [] => none
  | cs => digitsAccum hexDigitVal? 16 0 cs

/-- Numeric value of a non-empty all-decimal-digit character list. -/
def decDigitsVal? : List Char → Option Nat
  | [] => none
  | cs => digitsAccum decDigitVal? 10 0 cs

/-- Strip Go's optional leading sign; returns (negative?, rest). -/
def splitSign : List Char → Bool × List Char
  | '+' :: cs => (false, cs)
  | '-' :: cs => (true, cs)
  | cs => (false, cs)

/-- `strconv.ParseInt(s, 16, 64)`: optional sign, then one or more hex
digits (no `0x` prefix and no underscores, since the base is explicit),
range-checked against the signed 64-bit interval; `none` models a
returned error, in which case the caller's `err == nil` test fails. -/
def goParseInt16 (s : String) : Option Int :=
  let p := splitSign s.data
  match hexDigitsVal? p.2 with
  | none => none
  | some n =>
    if p.1 then
      if n ≤ 2 ^ 63 then some (-(n : Int)) else none
    else
      if n < 2 ^ 63 then some (n : Int) else none

/-- `strconv.ParseInt(s, 10, 32)`: optional sign, decimal digits,
range-checked against the signed 32-bit interval. -/
def goParseInt10x32 (s : String) : Option Int :=
  let p := splitSign s.data
  match decDigitsVal? p.2 with
  | none => none
  | some n =>
    if p.1 then
      if n ≤ 2 ^ 31 then some (-(n : Int)) else none
    else
      if n < 2 ^ 31 then some (n : Int) else none

/-- `strconv.ParseFloat(s, 64)` restricted to integral decimal strings.
Operator codes are MCC+MNC decimal digit strings (§3 of the spec:
"operator numeric code (decimal string, may be empty)"); no claim
depends on fractional, exponent or non-finite forms, so those are
modelled as parse failures together with all other malformed strings. -/
def goParseFloatInt? (s : String) : Option Int :=
  let p := splitSign s.data
  match decDigitsVal? p.2 with
  | none => none
  | some n => some (if p.1 then -(n : Int) else (n : Int))

/-- `strings.ToLower` as applied to the access-technology names.  The
library's `.String()` names are ASCII, so Unicode case mapping beyond
ASCII never arises; this model lowers the ASCII range and leaves every
other character unchanged. -/
def charLowerAscii (c : Char) : Char :=
  if 'A' ≤ c ∧ c ≤ 'Z' then Char.ofNat (c.toNat + 32) else c

/-- `strings.ToLower` over a whole string. -/
def goToLower (s : String) : String := ⟨s.data.map charLowerAscii⟩

/-- The mathematically correct integer value of a hexadecimal numeral
(optional sign, then hex digits), with no machine-range restriction.
This is the spec-side meaning of "the mathematically correct integer
value of H" against which `goParseInt16` is compared. -/
def hexValue? (s : String) : Option Int :=
  let p := splitSign s.data
  match hexDigitsVal? p.2 with
  | none => none
  | some n => some (if p.1 then -(n : Int) else (n : Int))

/-! ## Labels, metrics and the operation trace (pull path) -/

/-- The modem label tuple of the pull emitter, in the source's
`modemlabels` order: imei, icc, imsi, operatorid, operator, v_operator,
rat.  It is attached to every labelled metric of the pull path. -/
structure Identity where
  imei : String
  icc : String
  imsi : String
  operatorid : String
  operatorName : String
  vOperator : String
  rat : String
deriving DecidableEq, Repr

/-- The metric families registered by the pull exporter. -/
inductive MetricKind where
  | up
  | registered
  | connected
  | roaming
  | operatorcode
  | cellid
  | lac
  | tac
  | rssi
  | rsrp
deriving DecidableEq, Repr

/-- One sample written to the Prometheus channel: metric family, gauge
value, labels (`none` only for the label-less `up` gauge). -/
structure Metric where
  kind : MetricKind
  value : Int
  labels : Option Identity
deriving DecidableEq, Repr

/-- The side-effecting modem calls the source can perform, recorded in
invocation order (each call is traced whether or not it succeeds). -/
inductive Op where
  | enable
  | disconnectBearer (id : Nat)
  | deleteBearer (id : Nat)
  | connect (apn : String)
  | signalSetup (flag : Nat)
deriving DecidableEq, Repr

/-! ## Environment of one modem seen by `Collect` (pull path)

One field per external read the source performs, in source order.
`Option` fields model calls returning a value or an error; `Bool` fields
model calls whose value the source does not use beyond the error check.
Reads whose errored value the source never touches are simply `none`. -/

structure PullModemEnv where
  /-- first `modem.GetState()` (line 122). -/
  state1 : Option MMState
  /-- result of `modem.Enable()` when attempted (line 130). -/
  enableOk : Bool
  /-- `modem.GetSim()` (line 137). -/
  simOk : Bool
  /-- `sim.GetSimIdentifier()` (line 143). -/
  simIdent : Option String
  /-- `sim.GetImsi()` (line 149). -/
  simImsi : Option String
  /-- `sim.GetOperatorIdentifier()` (line 155). -/
  simOpIdent : Option String
  /-- `sim.GetOperatorName()` (line 161). -/
  simOp : Option String
  /-- `modem.Get3gpp()` (line 167). -/
  g3gppOk : Bool
  /-- `modem3gpp.GetImei()` (line 172). -/
  imei : Option String
  /-- `modem3gpp.GetOperatorName()` (line 178). -/
  opName : Option String
  /-- `modem.GetAccessTechnologies()` (line 184), entries already
  rendered by `.String()`. -/
  ratList : Option (List String)
  /-- second `modem.GetState()` (line 197); all classification uses it. -/
  state2 : Option MMState
  /-- `modem.GetBearers()` (line 210): the error is discarded with `_`,
  so a failed call behaves as the empty list.  Each bearer carries an
  identifier and whether `DeleteBearer` would succeed on it (the delete
  failure is only logged; the loop body holds nothing after it). -/
  bearers : List (Nat × Bool)
  /-- composite result of `modem.GetSimpleModem()` plus
  `modemSimple.Connect(...)` (lines 222-233): both failure modes are
  logged and non-fatal, so a failed handle acquisition is modelled as a
  failed connect attempt. -/
  connectOk : Bool
  /-- `modem.GetStateFailedReason()` (line 260): only the error is used. -/
  failedReasonOk : Bool
  /-- `modem.GetLocation()` (line 266). -/
  locationOk : Bool
  /-- `modemLocation.GetCurrentLocation()` (line 272). -/
  currentLocOk : Bool
  /-- `mloc.ThreeGppLacCi.Ci` — the cell-id hex string. -/
  ci : String
  /-- `mloc.ThreeGppLacCi.Lac` — the LAC hex string. -/
  lacS : String
  /-- `mloc.ThreeGppLacCi.Tac` — the TAC hex string. -/
  tacS : String
  /-- `modem3gpp.GetRegistrationState()` (line 306). -/
  regState : Option RegState
  /-- `modem3gpp.GetOperatorCode()` (line 322). -/
  opCode : Option String
  /-- `modem.GetSignal()` (line 334). -/
  signalOk : Bool
  /-- `modemSignal.Setup(1)` (line 340). -/
  setupEnableOk : Bool
  /-- `modemSignal.GetCurrentSignals()` (line 348): list of
  (Rssi, Rsrp) samples. -/
  signals : Option (List (Int × Int))
  /-- `modemSignal.Setup(0)` (line 364): failure is logged only. -/
  setupDisableOk : Bool
deriving Repr

/-! ## The pull-path collector, phase by phase -/

/-- Identity resolution of `Collect` (lines 137-195): the chain of
SIM reads, 3gpp reads and the access-technology cardinality check.
Every failure in this region hits a bare `continue` before anything is
emitted, so the distinct early exits are observationally one `none`. -/
def readIdentityPull (m : PullModemEnv) : Option Identity :=
  if !m.simOk then none else
  match m.simIdent, m.simImsi, m.simOpIdent, m.simOp with
  | some icc, some imsi, some opid, some opn =>
    if !m.g3gppOk then none else
    match m.imei, m.opName, m.ratList with
    | some imei, some vop, some rl =>
      match rl with
      | [t] => some ⟨imei, icc, imsi, opid, opn, vop, goToLower t⟩
      | _ => none
    | _, _, _ => none
  | _, _, _, _ => none

/-- The `Enable` attempt (lines 128-135): traced whenever the first
state read said `Disabled`, regardless of its outcome. -/
def pullEnableOps (st1 : MMState) : List Op :=
  if st1.str = "Disabled" then [Op.enable] else []

/-- The Connection Reconciler (lines 203-237): invoked only when the
re-read state renders as `Registered` and the APN environment variable
is non-empty.  Each existing bearer is disconnected then deleted (a
delete failure is logged and only skips that bearer — the loop body ends
there anyway), then one connect with the configured APN is attempted. -/
def reconcileOps (apn : String) (st2 : MMState) (bearers : List (Nat × Bool)) :
    List Op :=
  if st2.str = "Registered" ∧ apn ≠ "" then
    (bearers.flatMap fun b => [Op.disconnectBearer b.1, Op.deleteBearer b.1])
      ++ [Op.connect apn]
  else []

/-- Gauge value of `registered` on the pull path (line 239): the string
comparison `state.String() == "Registered" || state.String() == "Connected"`. -/
def pullRegisteredVal (st : MMState) : Int :=
  if st.str = "Registered" ∨ st.str = "Connected" then 1 else 0

/-- Gauge value of `connected` on the pull path (line 249). -/
def pullConnectedVal (st : MMState) : Int :=
  if st.str = "Connected" then 1 else 0

/-- Gauge value of `roaming` on the pull path (line 312): the string
comparison `regState.String() == "Roaming"`. -/
def pullRoamingVal (rs : RegState) : Int :=
  if rs.str = "Roaming" then 1 else 0

/-- One hex-identifier metric (lines 280-304): emitted iff
`strconv.ParseInt(s, 16, 64)` succeeds, otherwise only logged. -/
def hexMetric (k : MetricKind) (L : Identity) (s : String) : List Metric :=
  match goParseInt16 s with
  | some v => [⟨k, v, some L⟩]
  | none => []

/-- The signal-sample acquisition of `Collect` (lines 334-368):
`GetSignal`, `Setup(1)`, settle, `GetCurrentSignals`, per-sample
rssi/rsrp metrics, `Setup(0)`.  Each early `continue` is reproduced
exactly: in particular a failed `GetCurrentSignals` leaves the loop
without the `Setup(0)` call. -/
def pullSignalPhase (L : Identity) (m : PullModemEnv) : List Metric × List Op :=
  if !m.signalOk then ([], []) else
  if !m.setupEnableOk then ([], [Op.signalSetup 1]) else
  match m.signals with
  | none => ([], [Op.signalSetup 1])
  | some sps =>
    (sps.flatMap fun sp => [⟨.rssi, sp.1, some L⟩, ⟨.rsrp, sp.2, some L⟩],
     [Op.signalSetup 1, Op.signalSetup 0])

/-- Lines 239-368 of `Collect`: everything after the reconciler, for one
modem with resolved identity `L` and re-read state `st2`: the
registered/connected gauges, the `GetStateFailedReason` and location
gates, the hex location metrics, roaming, operator code, and the signal
phase, each aborting the remainder of the modem on failure exactly as
the source's `continue`s do. -/
def pullTailMetrics (L : Identity) (st2 : MMState) (m : PullModemEnv) :
    List Metric × List Op :=
  let regConn : List Metric :=
    [⟨.registered, pullRegisteredVal st2, some L⟩,
     ⟨.connected, pullConnectedVal st2, some L⟩]
  if !m.failedReasonOk then (regConn, []) else
  if !m.locationOk then (regConn, []) else
  if !m.currentLocOk then (regConn, []) else
  let locM := hexMetric .cellid L m.ci ++ hexMetric .lac L m.lacS
    ++ hexMetric .tac L m.tacS
  match m.regState with
  | none => (regConn ++ locM, [])
  | some rs =>
    let roamM : List Metric := [⟨.roaming, pullRoamingVal rs, some L⟩]
    match m.opCode with
    | none => (regConn ++ locM ++ roamM, [])
    | some oc =>
      let opM : List Metric :=
        match goParseFloatInt? oc with
        | some v => [⟨.operatorcode, v, some L⟩]
        | none => []
      let sig := pullSignalPhase L m
      (regConn ++ locM ++ roamM ++ opM ++ sig.1, sig.2)

/-- One iteration of the modem loop of `Collect` (lines 120-370):
metrics emitted and operations performed for one modem. -/
def collectModem (apn : String) (m : PullModemEnv) : List Metric × List Op :=
  match m.state1 with
  | none => ([], [])
  | some st1 =>
    let enOps := pullEnableOps st1
    if st1.str = "Disabled" ∧ !m.enableOk then ([], enOps) else
    match readIdentityPull m with
    | none => ([], enOps)
    | some L =>
      match m.state2 with
      | none => ([], enOps)
      | some st2 =>
        let rOps := reconcileOps apn st2 m.bearers
        let tail := pullTailMetrics L st2 m
        (tail.1, enOps ++ rOps ++ tail.2)

/-- `Exporter.Collect` (lines 108-372): on a `GetModems` failure nothing
is emitted at all; otherwise the label-less `up = 1` gauge is written
once before the modem loop, then each modem is processed in turn. -/
def Collect (apn : String) (modems : Option (List PullModemEnv)) :
    List Metric × List Op :=
  match modems with
  | none => ([], [])
  | some ms =>
    (⟨.up, 1, none⟩ :: ms.flatMap (fun m => (collectModem apn m).1),
     ms.flatMap fun m => (collectModem apn m).2)

/-! ## Environment and output of `influxHandler` (push path)

`influxHandler` (lines 374-618) renders line-protocol records.  Records
are modelled structurally (measurement, tags, typed fields); the shared
per-modem nanosecond timestamp is real time and is not modelled — no
claim depends on it.  Go reads that return their zero value alongside an
error (`imei`, operator identifiers and names, mcc, mnc, power state,
signal quality) are modelled as `Option` with the zero value restored by
`Option.getD` exactly where the source keeps using the variable. -/

/-- The comma-joined tag set of every push record (line 455): identity
fields plus mcc, mnc and phone number. -/
structure Tags where
  imei : String
  icc : String
  imsi : String
  operatorid : String
  operatorName : String
  vOperator : String
  mcc : String
  mnc : String
  rat : String
  phoneNumber : String
deriving DecidableEq, Repr

/-- The field set of the `modem_status` record (lines 547-550).  The
record always carries every field; unread values appear as the zero
values the source substitutes. -/
structure StatusRecord where
  tags : Tags
  powerState : String
  cellid : String
  lacS : String
  tacS : String
  registered : Bool
  connected : Bool
  state : String
  operatorcode : Int
  roaming : Bool
  regstate : String
  signalQuality : Nat
  signalQualityRecent : Bool
  messageCount : Nat
deriving DecidableEq, Repr

/-- One line-protocol record written by the push handler. -/
inductive Record where
  | status (r : StatusRecord)
  | signalGsm (tags : Tags) (stype : String) (rssi ber : Int)
  | signalLte (tags : Tags) (stype : String) (rssi rsrp rsrq snr ber : Int)
  | bearerStats (tags : Tags) (btype : String) (rx tx dur : Nat)
  | bearerIp (tags : Tags) (btype : String) (ip : String)
  | bearerIp6 (tags : Tags) (btype : String) (ip : String)
deriving DecidableEq, Repr

/-- One bearer of the push path (lines 587-614). -/
structure PushBearerEnv where
  /-- `bearer.GetBearerType()`, already rendered by `.String()`; a failed
  read falls back to `MmBearerTypeUnknown` (line 591). -/
  btype : Option String
  /-- `bearer.GetStats()` → (RxBytes, TxBytes, Duration). -/
  stats : Option (Nat × Nat × Nat)
  /-- `bearer.GetIp4Config()` → address. -/
  ip4 : Option String
  /-- `bearer.GetIp6Config()` → address. -/
  ip6 : Option String
deriving DecidableEq, Repr

/-- Environment of one modem seen by `influxHandler`, in source order. -/
structure PushModemEnv where
  /-- `modem.Get3gpp()` (line 384): failure skips the modem. -/
  g3gppOk : Bool
  /-- `modem3gpp.GetImei()` (line 389): the error is discarded with `_`;
  a failed read leaves the zero value `""`. -/
  imei : Option String
  /-- `modem.GetSim()` (line 390): failure skips the modem. -/
  simOk : Bool
  /-- `sim.GetSimIdentifier()` (line 395): failure skips the modem. -/
  simIdent : Option String
  /-- `sim.GetImsi()` (line 400): failure skips the modem. -/
  simImsi : Option String
  /-- `sim.GetOperatorIdentifier()` (line 406): failure logged only. -/
  simOpIdent : Option String
  /-- `sim.GetOperatorName()` (line 410): failure logged only. -/
  simOp : Option String
  /-- `modem3gpp.GetOperatorName()` (line 415): failure logged only. -/
  opName : Option String
  /-- `modem3gpp.GetMcc()` (line 420): failure logged only. -/
  mcc : Option String
  /-- `modem3gpp.GetMnc()` (line 424): failure logged only. -/
  mnc : Option String
  /-- `modem.GetAccessTechnologies()` (line 429): failure skips the
  modem; any list length is tolerated. -/
  ratList : Option (List String)
  /-- `modem.GetOwnNumbers()` (line 443): failure logged only. -/
  ownNumbers : Option (List String)
  /-- `modem.GetPowerState()` (line 461), rendered by `.String()`; a
  failed read leaves the enum zero value, rendered `"Unknown"`. -/
  powerState : Option String
  /-- `modem.GetSignalQuality()` (line 466) → (percent, recent); a failed
  read leaves the zero values (0, false). -/
  signalQuality : Option (Nat × Bool)
  /-- `modem.GetLocation()` plus `GetCurrentLocation()` (lines 474-486):
  either failure leaves the empty location strings, so both are one
  optional triple (Ci, Lac, Tac). -/
  currentLoc : Option (String × String × String)
  /-- `modem3gpp.GetRegistrationState()` (line 488). -/
  regState : Option RegState
  /-- `modem.GetState()` (line 500). -/
  state : Option MMState
  /-- `modem3gpp.GetOperatorCode()` (line 514). -/
  opCode : Option String
  /-- `modem.GetMessaging()` (line 534). -/
  messagingOk : Bool
  /-- `messaging.List()` (line 538) → message count. -/
  messages : Option Nat
  /-- `modem.GetSignal()` (line 553). -/
  signalOk : Bool
  /-- `modemSignal.Setup(1)` (line 557). -/
  setupEnableOk : Bool
  /-- `modemSignal.GetGsm()` (line 562) → (type string, Rssi, ErrorRate). -/
  gsm : Option (String × Int × Int)
  /-- `modemSignal.GetLte()` (line 571) →
  (type string, Rssi, Rsrp, Rsrq, Snr, ErrorRate). -/
  lte : Option (String × Int × Int × Int × Int × Int)
  /-- `modemSignal.Setup(0)` (line 580): failure logged only. -/
  setupDisableOk : Bool
  /-- `modem.GetBearers()` (line 586): the error is discarded with `_`. -/
  bearers : List PushBearerEnv
deriving Repr

/-- RAT normalization of the push path (lines 434-440): empty list gives
the empty string; otherwise the first entry lowercased wins and any
extras are logged as dropped. -/
def pushRat : List String → String
  | [] => ""
  | t :: _ => goToLower t

/-- The `String()` rendering of the zero value of `MmModemPowerState`,
substituted when `GetPowerState` fails. -/
def powerStateZeroStr : String := "Unknown"

/-- The `String()` rendering of `MmBearerTypeUnknown`, substituted when
`GetBearerType` fails. -/
def bearerTypeUnknownStr : String := "Unknown"

/-- Tag assembly (lines 442-458), given the mandatory icc, imsi and the
normalized rat; all log-only reads fall back to their zero values. -/
def pushTags (m : PushModemEnv) (icc imsi rat : String) : Tags :=
  { imei := m.imei.getD ""
    icc := icc
    imsi := imsi
    operatorid := m.simOpIdent.getD ""
    operatorName := m.simOp.getD ""
    vOperator := m.opName.getD ""
    mcc := m.mcc.getD ""
    mnc := m.mnc.getD ""
    rat := rat
    phoneNumber := (m.ownNumbers.getD []).headD "" }

/-- `registered` on the push path (line 510): the enum-ordering
comparison `state >= MmModemStateRegistered`. -/
def pushRegistered (st : MMState) : Bool :=
  decide (MMState.registered.val ≤ st.val)

/-- `connected` on the push path (line 511): `state == MmModemStateConnected`. -/
def pushConnected (st : MMState) : Bool :=
  decide (st.val = MMState.connected.val)

/-- Operator-code normalization of the push path (lines 514-530): a
failed read, an empty string, or a `strconv.ParseInt(s, 10, 32)` failure
all yield the substituted value 0, which is then emitted. -/
def pushOpCodeInt (r : Option String) : Int :=
  match r with
  | none => 0
  | some s =>
    if s = "" then 0
    else
      match goParseInt10x32 s with
      | some v => v
      | none => 0

/-- Assembly of the `modem_status` record (lines 459-550): every field is
always written; failed reads contribute the substituted defaults the
source computes (`false`, `"unknown"`, `0`, `""`). -/
def pushStatus (t : Tags) (m : PushModemEnv) : StatusRecord :=
  { tags := t
    powerState := m.powerState.getD powerStateZeroStr
    cellid := (m.currentLoc.getD ("", "", "")).1
    lacS := (m.currentLoc.getD ("", "", "")).2.1
    tacS := (m.currentLoc.getD ("", "", "")).2.2
    registered := match m.state with
      | none => false
      | some st => pushRegistered st
    connected := match m.state with
      | none => false
      | some st => pushConnected st
    state := match m.state with
      | none => "unknown"
      | some st => st.str
    operatorcode := pushOpCodeInt m.opCode
    roaming := match m.regState with
      | none => false
      | some rs => decide (rs = RegState.roaming)
    regstate := match m.regState with
      | none => "unknown"
      | some rs => rs.str
    signalQuality := (m.signalQuality.getD (0, false)).1
    signalQualityRecent := (m.signalQuality.getD (0, false)).2
    messageCount := if !m.messagingOk then 0 else m.messages.getD 0 }

/-- Signal records of the push path (lines 552-584): on a successful
`Setup(1)` the gsm and lte reads are each best-effort and `Setup(0)` is
always called afterwards, even when both reads failed. -/
def pushSignalRecords (t : Tags) (m : PushModemEnv) :
    List Record × List Op :=
  if !m.signalOk then ([], []) else
  if !m.setupEnableOk then ([], [Op.signalSetup 1]) else
  ((match m.gsm with
    | none => []
    | some g => [Record.signalGsm t g.1 g.2.1 g.2.2]) ++
   (match m.lte with
    | none => []
    | some l =>
      [Record.signalLte t l.1 l.2.1 l.2.2.1 l.2.2.2.1 l.2.2.2.2.1 l.2.2.2.2.2]),
   [Op.signalSetup 1, Op.signalSetup 0])

/-- Bearer records of the push path (lines 586-614): per bearer, a stats
record, an IPv4 record and an IPv6 record, each omitted on read failure. -/
def pushBearerRecords (t : Tags) (bs : List PushBearerEnv) : List Record :=
  bs.flatMap fun b =>
    let bt := b.btype.getD bearerTypeUnknownStr
    (match b.stats with
     | some s => [Record.bearerStats t bt s.1 s.2.1 s.2.2]
     | none => []) ++
    (match b.ip4 with
     | some ip => [Record.bearerIp t bt ip]
     | none => []) ++
    (match b.ip6 with
     | some ip => [Record.bearerIp6 t bt ip]
     | none => [])

/-- One iteration of the modem loop of `influxHandler` (lines 383-616):
a hard `continue` only on the `Get3gpp`, `GetSim`, `GetSimIdentifier`,
`GetImsi` and `GetAccessTechnologies` failures; everything else is
best-effort with substituted defaults. -/
def influxModem (m : PushModemEnv) : List Record × List Op :=
  if !m.g3gppOk then ([], []) else
  if !m.simOk then ([], []) else
  match m.simIdent with
  | none => ([], [])
  | some icc =>
    match m.simImsi with
    | none => ([], [])
    | some imsi =>
      match m.ratList with
      | none => ([], [])
      | some rl =>
        let t := pushTags m icc imsi (pushRat rl)
        let sig := pushSignalRecords t m
        (Record.status (pushStatus t m) :: sig.1
          ++ pushBearerRecords t m.bearers, sig.2)

/-- `influxHandler` (lines 374-618): a `GetModems` failure answers the
request with status 500 and no records (`none`); otherwise every modem
is processed in turn. -/
def influxHandler (modems : Option (List PushModemEnv)) :
    Option (List Record × List Op) :=
  match modems with
  | none => none
  | some ms =>
    some (ms.flatMap fun m => (influxModem m).1,
      ms.flatMap fun m => (influxModem m).2)

/-! ## Trace predicates -/

/-- The bearer-manipulating operations of the Connection Reconciler:
`Disconnect`, `DeleteBearer` and the `Connect` attempt. -/
def isBearerOp : Op → Bool
  | .disconnectBearer _ => true
  | .deleteBearer _ => true
  | .connect _ => true
  | _ => false

/-- The signal-reporting `Setup(1)` / `Setup(0)` toggle. -/
def isSetupToggle : Op → Bool
  | .signalSetup 0 => true
  | .signalSetup 1 => true
  | _ => false

/-- Selects the samples of one metric family. -/
def kindIs (k : MetricKind) (x : Metric) : Bool := decide (x.kind = k)

/-! ## Concrete environments

A fully successful modem for each path; the theorems below perturb
single fields of these. -/

/-- The label tuple `readIdentityPull` resolves for `basePull`. -/
def baseIdentity : Identity :=
  { imei := "imei1"
    icc := "icc1"
    imsi := "imsi1"
    operatorid := "opid1"
    operatorName := "opn1"
    vOperator := "vop1"
    rat := "lte" }

/-- A pull-path modem whose every read succeeds. -/
def basePull : PullModemEnv :=
  { state1 := some .registered
    enableOk := true
    simOk := true
    simIdent := some "icc1"
    simImsi := some "imsi1"
    simOpIdent := some "opid1"
    simOp := some "opn1"
    g3gppOk := true
    imei := some "imei1"
    opName := some "vop1"
    ratList := some ["Lte"]
    state2 := some .registered
    bearers := [(0, true), (1, false)]
    connectOk := true
    failedReasonOk := true
    locationOk := true
    currentLocOk := true
    ci := "1A2B"
    lacS := "2F"
    tacS := "FFFF"
    regState := some .home
    opCode := some "26201"
    signalOk := true
    setupEnableOk := true
    signals := some [(-60, -90)]
    setupDisableOk := true }

/-- A push-path modem whose every read succeeds. -/
def basePush : PushModemEnv :=
  { g3gppOk := true
    imei := some "imei1"
    simOk := true
    simIdent := some "icc1"
    simImsi := some "imsi1"
    simOpIdent := some "opid1"
    simOp := some "opn1"
    opName := some "vop1"
    mcc := some "262"
    mnc := some "01"
    ratList := some ["Lte"]
    ownNumbers := some ["15551234"]
    powerState := some "On"
    signalQuality := some (80, true)
    currentLoc := some ("1A2B", "2F", "FFFF")
    regState := some .home
    state := some .registered
    opCode := some "26201"
    messagingOk := true
    messages := some 2
    signalOk := true
    setupEnableOk := true
    gsm := some ("Gsm", -60, 0)
    lte := some ("Lte", -60, -90, -10, 12, 0)
    setupDisableOk := true
    bearers := [{ btype := some "Default"
                  stats := some (1, 2, 3)
                  ip4 := some "10.0.0.2"
                  ip6 := some "fe80::1" }] }

/-! ## General list helpers -/

theorem filter_flatMap_nil {α β : Type} (l : List α) (f : α → List β)
    (p : β → Bool) (h : ∀ a, (f a).filter p = []) :
    (l.flatMap f).filter p = [] := by
  induction l with
  | nil => rfl
  | cons a t ih => simp [List.flatMap_cons, List.filter_append, h a, ih]

theorem all_flatMap {α β : Type} (l : List α) (f : α → List β) (p : β → Bool)
    (h : ∀ a, (f a).all p = true) : ((l.flatMap f).all p) = true := by
  induction l with
  | nil => rfl
  | cons a t ih => simp [List.flatMap_cons, List.all_append, h a, ih]

/-! ## Derivation-level helpers -/

theorem pullConn_imp_reg (st : MMState) :
    pullConnectedVal st = 1 → pullRegisteredVal st = 1 := by
  cases st <;> decide

theorem pushConn_imp_reg (st : MMState) :
    pushConnected st = true → pushRegistered st = true := by
  cases st <;> decide

/-! ## C3 -/

/-- C3: for every modem operational state, the derived `connected`
boolean implies the derived `registered` boolean, on the pull path
(string comparison against "Registered"/"Connected"), on the push path
(enum-ordering comparison `state >= Registered`, `state == Connected`),
and at the level of the assembled `modem_status` record. -/
theorem C3_connected_implies_registered (st : MMState) (t : Tags)
    (m : PushModemEnv) :
    (pullConnectedVal st = 1 → pullRegisteredVal st = 1) ∧
    (pushConnected st = true → pushRegistered st = true) ∧
    ((pushStatus t m).connected = true → (pushStatus t m).registered = true) := by
  refine ⟨pullConn_imp_reg st, pushConn_imp_reg st, ?_⟩
  intro h
  rcases hm : m.state with _ | st2
  · simp [pushStatus, hm] at h
  · simp only [pushStatus, hm] at h ⊢
    exact pushConn_imp_reg st2 h

/-- Witness for C3 at the `Connected` state. -/
theorem C3_witness :
    pullRegisteredVal MMState.connected = 1 ∧
    pushRegistered MMState.connected = true ∧
    (pushStatus (pushTags basePush "icc1" "imsi1" "lte")
      { basePush with state := some .connected }).registered = true :=
  ⟨(C3_connected_implies_registered .connected
      (pushTags basePush "icc1" "imsi1" "lte")
      { basePush with state := some .connected }).1 (by decide),
   (C3_connected_implies_registered .connected
      (pushTags basePush "icc1" "imsi1" "lte")
      { basePush with state := some .connected }).2.1 (by decide),
   (C3_connected_implies_registered .connected
      (pushTags basePush "icc1" "imsi1" "lte")
      { basePush with state := some .connected }).2.2 (by decide)⟩

/-! ## C10 -/

theorem influxModem_ops (m : PushModemEnv) :
    (influxModem m).2 = [] ∨ (influxModem m).2 = [Op.signalSetup 1] ∨
      (influxModem m).2 = [Op.signalSetup 1, Op.signalSetup 0] := by
  unfold influxModem pushSignalRecords
  cases m.g3gppOk <;> cases m.simOk <;> rcases m.simIdent with _ | icc <;>
    rcases m.simImsi with _ | imsi <;> rcases m.ratList with _ | rl <;>
      cases m.signalOk <;> cases m.setupEnableOk <;> simp

theorem influxModem_all_setup (m : PushModemEnv) :
    ((influxModem m).2.all isSetupToggle) = true := by
  rcases influxModem_ops m with h | h | h <;> rw [h] <;> rfl

/-- C10: the push-path handler performs no modem-mutating operation
other than the signal-reporting `Setup(1)`/`Setup(0)` toggle — its whole
operation trace, over every environment, consists of setup toggles, so
it never calls `Enable`, `Connect`, `Disconnect` or `DeleteBearer`; and
a listing failure performs nothing at all. -/
theorem C10_push_frame (ms : List PushModemEnv) :
    ((((influxHandler (some ms)).getD ([], [])).2.all isSetupToggle) = true) ∧
    influxHandler none = none := by
  refine ⟨?_, rfl⟩
  simp only [influxHandler, Option.getD_some]
  exact all_flatMap ms _ _ influxModem_all_setup

/-! ## Filter helpers over the pull-path output -/

theorem filter_hexMetric_self (k : MetricKind) (L : Identity) (s : String) :
    (hexMetric k L s).filter (kindIs k) = hexMetric k L s := by
  unfold hexMetric
  rcases goParseInt16 s with _ | v <;> simp [kindIs]

theorem filter_hexMetric_ne (k k' : MetricKind) (L : Identity) (s : String)
    (h : ¬(k' = k)) : (hexMetric k' L s).filter (kindIs k) = [] := by
  unfold hexMetric
  rcases goParseInt16 s with _ | v <;> simp [kindIs, h]

theorem filter_signalPhase_ne (k : MetricKind) (L : Identity)
    (m : PullModemEnv) (h1 : ¬(MetricKind.rssi = k))
    (h2 : ¬(MetricKind.rsrp = k)) :
    ((pullSignalPhase L m).1.filter (kindIs k)) = [] := by
  unfold pullSignalPhase
  cases m.signalOk with
  | false => rfl
  | true =>
    cases m.setupEnableOk with
    | false => rfl
    | true =>
      rcases m.signals with _ | sps
      · rfl
      · exact filter_flatMap_nil sps _ _ fun sp => by simp [kindIs, h1, h2]

theorem signalPhase_ops (L : Identity) (m : PullModemEnv) :
    (pullSignalPhase L m).2 = [] ∨
      (pullSignalPhase L m).2 = [Op.signalSetup 1] ∨
      (pullSignalPhase L m).2 = [Op.signalSetup 1, Op.signalSetup 0] := by
  unfold pullSignalPhase
  cases m.signalOk <;> cases m.setupEnableOk <;>
    rcases m.signals with _ | sps <;> simp

theorem filter_up_pullTail (L : Identity) (st2 : MMState) (m : PullModemEnv) :
    ((pullTailMetrics L st2 m).1.filter (kindIs .up)) = [] := by
  unfold pullTailMetrics
  cases m.failedReasonOk <;> cases m.locationOk <;> cases m.currentLocOk <;>
    rcases m.regState with _ | rs <;> rcases m.opCode with _ | oc <;>
      simp [kindIs, List.filter_append, filter_hexMetric_ne,
        filter_signalPhase_ne]
  rcases goParseFloatInt? oc with _ | v <;> simp

theorem filter_up_collectModem (apn : String) (m : PullModemEnv) :
    ((collectModem apn m).1.filter (kindIs .up)) = [] := by
  unfold collectModem
  rcases m.state1 with _ | st1
  · rfl
  · by_cases h : st1.str = "Disabled" ∧ (!m.enableOk) = true
    · simp only [if_pos h]; rfl
    · simp only [if_neg h]
      rcases readIdentityPull m with _ | L
      · rfl
      · rcases m.state2 with _ | st2
        · rfl
        · exact filter_up_pullTail L st2 m

/-! ## C8 -/

/-- C8: in the pull-path collector the label-less `up` gauge is emitted
exactly once per collection, with value 1, whenever the modem listing
succeeded — over every environment, so regardless of any per-modem
failures — and when the listing fails nothing at all is emitted; in
particular `up` never appears with value 0. -/
theorem C8_up_gauge (apn : String) (envs : List PullModemEnv) :
    ((Collect apn (some envs)).1.filter (kindIs .up))
      = [⟨.up, 1, none⟩] ∧
    Collect apn none = ([], []) := by
  refine ⟨?_, rfl⟩
  show ((⟨.up, 1, none⟩ :: envs.flatMap
    fun m => (collectModem apn m).1).filter (kindIs .up)) = [⟨.up, 1, none⟩]
  rw [List.filter_cons_of_pos (by rfl)]
  rw [filter_flatMap_nil envs _ _ fun m => filter_up_collectModem apn m]

/-! ## Reduction of `collectModem` past its gates -/

theorem collectModem_reaches (apn : String) (m : PullModemEnv)
    (L : Identity) (st1 st2 : MMState) (h1 : m.state1 = some st1)
    (hen : ¬(st1.str = "Disabled" ∧ (!m.enableOk) = true))
    (hid : readIdentityPull m = some L) (h2 : m.state2 = some st2) :
    collectModem apn m =
      ((pullTailMetrics L st2 m).1,
       pullEnableOps st1 ++ reconcileOps apn st2 m.bearers
         ++ (pullTailMetrics L st2 m).2) := by
  unfold collectModem
  rw [h1]; dsimp only
  rw [if_neg hen, hid]; dsimp only
  rw [h2]

/-! ## Agreement of `strconv.ParseInt(s, 16, 64)` with the mathematical
hex value -/

theorem goParseInt16_eq_hexValue (s : String) (v : Int)
    (h : hexValue? s = some v) (hlo : -(2 ^ 63) ≤ v) (hhi : v < 2 ^ 63) :
    goParseInt16 s = some v := by
  simp only [hexValue?] at h
  simp only [goParseInt16]
  rcases hd : hexDigitsVal? (splitSign s.data).2 with _ | n
  · rw [hd] at h; simp at h
  · rw [hd] at h
    simp only [Option.some_inj] at h
    cases hneg : (splitSign s.data).1 with
    | false =>
      rw [hneg] at h
      simp only [Bool.false_eq_true, if_false] at h
      rw [← h] at hhi ⊢
      have hn : n < 2 ^ 63 := by exact_mod_cast hhi
      simp [hn]
      omega
    | true =>
      rw [hneg] at h
      simp only [if_true] at h
      rw [← h] at hlo ⊢
      have hn : n ≤ 2 ^ 63 := by
        have hni : (n : Int) ≤ 2 ^ 63 := by omega
        exact_mod_cast hni
      simp [hn]
      omega

theorem goParseInt16_none_of_hexValue_none (s : String)
    (h : hexValue? s = none) : goParseInt16 s = none := by
  simp only [hexValue?] at h
  simp only [goParseInt16]
  rcases hd : hexDigitsVal? (splitSign s.data).2 with _ | n
  · rfl
  · rw [hd] at h; simp at h

theorem filter_loc_pullTail (L : Identity) (st2 : MMState)
    (m : PullModemEnv) (hfr : m.failedReasonOk = true)
    (hloc : m.locationOk = true) (hcl : m.currentLocOk = true) :
    ((pullTailMetrics L st2 m).1.filter (kindIs .cellid))
        = hexMetric .cellid L m.ci ∧
    ((pullTailMetrics L st2 m).1.filter (kindIs .lac))
        = hexMetric .lac L m.lacS ∧
    ((pullTailMetrics L st2 m).1.filter (kindIs .tac))
        = hexMetric .tac L m.tacS := by
  unfold pullTailMetrics
  rw [hfr, hloc, hcl]
  simp only [Bool.not_true, Bool.false_eq_true, if_false]
  rcases m.regState with _ | rs
  · refine ⟨?_, ?_, ?_⟩ <;>
      simp [List.filter_append, filter_hexMetric_self, filter_hexMetric_ne,
        kindIs]
  · rcases m.opCode with _ | oc
    · refine ⟨?_, ?_, ?_⟩ <;>
        simp [List.filter_append, filter_hexMetric_self, filter_hexMetric_ne,
          kindIs]
    · rcases hpf : goParseFloatInt? oc with _ | v <;>
        refine ⟨?_, ?_, ?_⟩ <;>
          simp [hpf, List.filter_append, filter_hexMetric_self,
            filter_hexMetric_ne, filter_signalPhase_ne, kindIs]

/-! ## C2 -/

/-- A pull-path modem reporting a cell ID that is valid hexadecimal but
exceeds the signed 64-bit range. -/
def c2Env : PullModemEnv := { basePull with ci := "8000000000000000" }

/-- C2 counterexample: `"8000000000000000"` is a valid hexadecimal
string of mathematical value 2^63, yet the collector emits no `cellid`
metric for it, because `strconv.ParseInt(s, 16, 64)` fails beyond the
signed 64-bit range — so the emitted decode does not equal the
mathematical value of every valid hex string. -/
theorem C2_counterexample :
    hexValue? "8000000000000000" = some (2 ^ 63) ∧
    c2Env.ci = "8000000000000000" ∧
    ((collectModem "" c2Env).1.filter (kindIs .cellid)) = [] := by decide

/-- C2 (amended): for every hex string whose mathematical value fits the
signed 64-bit range, the base-16 decode equals that value; every string
that is empty or not valid hexadecimal decodes to absent; and in the
collector's output the cellid/lac/tac metrics are exactly the successful
decodes of the corresponding location strings — absent on parse failure,
never a zero default. -/
theorem C2_hex_decode :
    (∀ s v, hexValue? s = some v → -(2 ^ 63) ≤ v → v < 2 ^ 63 →
      goParseInt16 s = some v) ∧
    (∀ s, hexValue? s = none → goParseInt16 s = none) ∧
    (∀ apn m L st1 st2, m.state1 = some st1 →
      ¬(st1.str = "Disabled" ∧ (!m.enableOk) = true) →
      readIdentityPull m = some L → m.state2 = some st2 →
      m.failedReasonOk = true → m.locationOk = true → m.currentLocOk = true →
      ((collectModem apn m).1.filter (kindIs .cellid))
          = hexMetric .cellid L m.ci ∧
      ((collectModem apn m).1.filter (kindIs .lac))
          = hexMetric .lac L m.lacS ∧
      ((collectModem apn m).1.filter (kindIs .tac))
          = hexMetric .tac L m.tacS) := by
  refine ⟨goParseInt16_eq_hexValue, goParseInt16_none_of_hexValue_none, ?_⟩
  intro apn m L st1 st2 h1 hen hid h2 hfr hloc hcl
  rw [collectModem_reaches apn m L st1 st2 h1 hen hid h2]
  exact filter_loc_pullTail L st2 m hfr hloc hcl

/-- Witness for C2 on concrete inputs: an in-range decode, a non-hex
failure, and the collector emitting exactly the decoded cell ID. -/
theorem C2_witness :
    goParseInt16 "1A2B" = some 6699 ∧
    goParseInt16 "zz" = none ∧
    ((collectModem "" basePull).1.filter (kindIs .cellid))
      = hexMetric .cellid baseIdentity basePull.ci :=
  ⟨C2_hex_decode.1 "1A2B" 6699 (by decide) (by decide) (by decide),
   C2_hex_decode.2.1 "zz" (by decide),
   (C2_hex_decode.2.2 "" basePull baseIdentity .registered .registered
     (by decide) (by decide) (by decide) (by decide) (by decide) (by decide)
     (by decide)).1⟩

/-! ## C1 -/

/-- A push-path modem whose IMEI read fails (every other read succeeds). -/
def c1Env : PushModemEnv := { basePush with imei := none }

/-- The `modem_status` record `influxHandler` assembles for `c1Env`. -/
def c1Rec : StatusRecord := pushStatus (pushTags c1Env "icc1" "imsi1" "lte") c1Env

/-- C1 counterexample: on the push path the IMEI read error is discarded
(`imei, _ := modem3gpp.GetImei()`), so a modem whose IMEI — an identity
field — is unobtainable still has its records emitted, with the empty
string as the imei tag.  The claim's skip-on-identity-failure property
does not hold for the push emitter. -/
theorem C1_counterexample :
    c1Env.imei = none ∧
    (influxModem c1Env).1.head? = some (Record.status c1Rec) ∧
    c1Rec.tags.imei = "" := by decide

theorem readIdentityPull_none_cases (m : PullModemEnv)
    (h : m.simOk = false ∨ m.simIdent = none ∨ m.simImsi = none ∨
      m.simOpIdent = none ∨ m.simOp = none ∨ m.g3gppOk = false ∨
      m.imei = none ∨ m.opName = none) :
    readIdentityPull m = none := by
  unfold readIdentityPull
  cases hso : m.simOk <;> rcases hsi : m.simIdent with _ | icc <;>
    rcases hsm : m.simImsi with _ | imsi <;>
    rcases hoi : m.simOpIdent with _ | opid <;>
    rcases hop : m.simOp with _ | opn <;> cases hg3 : m.g3gppOk <;>
    rcases him : m.imei with _ | imei <;>
    rcases hon : m.opName with _ | von <;> simp_all

theorem collectModem_metrics_nil_of_id_none (apn : String)
    (m : PullModemEnv) (h : readIdentityPull m = none) :
    (collectModem apn m).1 = [] := by
  unfold collectModem
  rcases m.state1 with _ | st1
  · rfl
  · by_cases hd : st1.str = "Disabled" ∧ (!m.enableOk) = true
    · simp only [if_pos hd]
    · simp only [if_neg hd]
      rw [h]

theorem influxModem_skip (m : PushModemEnv)
    (h : m.g3gppOk = false ∨ m.simOk = false ∨ m.simIdent = none ∨
      m.simImsi = none) :
    influxModem m = ([], []) := by
  unfold influxModem
  cases hg : m.g3gppOk <;> cases hs : m.simOk <;>
    rcases hi : m.simIdent with _ | icc <;>
    rcases hm2 : m.simImsi with _ | imsi <;>
    rcases hr : m.ratList with _ | rl <;> simp_all

/-- C1 (amended): in the pull emitter a failure of any identity read
(SIM access, SIM identifier, IMSI, SIM-operator-identifier,
SIM-operator-name, 3gpp access, IMEI, network-operator-name) skips the
modem entirely — no metric is emitted for it — and the surrounding
collection is unchanged, so the remaining modems are still processed.
In the push emitter only the SIM/3gpp interface acquisitions and the
SIM-identifier and IMSI reads skip the modem (with the remaining modems
unaffected); failures of the other identity reads (IMEI,
SIM-operator-identifier, SIM-operator-name, network-operator-name) are
logged and the modem's records are emitted anyway, carrying zero-valued
tags (see the counterexample). -/
theorem C1_identity_policy :
    (∀ apn m, readIdentityPull m = none → (collectModem apn m).1 = []) ∧
    (∀ m : PullModemEnv, m.simOk = false ∨ m.simIdent = none ∨
      m.simImsi = none ∨ m.simOpIdent = none ∨ m.simOp = none ∨
      m.g3gppOk = false ∨ m.imei = none ∨ m.opName = none →
      readIdentityPull m = none) ∧
    (∀ m : PushModemEnv, m.g3gppOk = false ∨ m.simOk = false ∨
      m.simIdent = none ∨ m.simImsi = none → influxModem m = ([], [])) ∧
    (∀ apn xs ys m, readIdentityPull m = none →
      (Collect apn (some (xs ++ m :: ys))).1
        = (Collect apn (some (xs ++ ys))).1) ∧
    (∀ xs ys m, m.g3gppOk = false ∨ m.simOk = false ∨ m.simIdent = none ∨
      m.simImsi = none →
      (influxHandler (some (xs ++ m :: ys))).map Prod.fst
        = (influxHandler (some (xs ++ ys))).map Prod.fst) := by
  refine ⟨collectModem_metrics_nil_of_id_none, readIdentityPull_none_cases,
    influxModem_skip, ?_, ?_⟩
  · intro apn xs ys m h
    simp [Collect, List.flatMap_append, List.flatMap_cons,
      collectModem_metrics_nil_of_id_none apn m h]
  · intro xs ys m h
    have hm := influxModem_skip m h
    simp [influxHandler, List.flatMap_append, List.flatMap_cons, hm]

/-- Witness for C1 on concrete modems: a pull modem with a failed IMSI
read emits nothing; a push modem with a failed SIM-identifier read emits
nothing. -/
theorem C1_witness :
    (collectModem "" { basePull with simImsi := none }).1 = [] ∧
    influxModem { basePush with simIdent := none } = ([], []) :=
  ⟨C1_identity_policy.1 "" { basePull with simImsi := none }
      (C1_identity_policy.2.1 _ (by simp)),
   C1_identity_policy.2.2.1 { basePush with simIdent := none } (by simp)⟩

/-! ## C4 -/

/-- A pull-path modem whose registration-state read says `Roaming` while
its operational-state re-read says `Searching`. -/
def c4Env : PullModemEnv :=
  { basePull with state2 := some .searching, regState := some .roaming }

/-- A push-path modem with the same mixed pair of readings. -/
def c4PushEnv : PushModemEnv :=
  { basePush with state := some .searching, regState := some .roaming }

/-- The `modem_status` record `influxHandler` assembles for `c4PushEnv`. -/
def c4Rec : StatusRecord :=
  pushStatus (pushTags c4PushEnv "icc1" "imsi1" "lte") c4PushEnv

/-- C4 counterexample: `roaming` is derived from the registration-state
reading and `registered` from the operational-state reading,
independently.  For the combination (registration state `Roaming`,
operational state `Searching`) observed in one pass, both emitters
output `roaming = true` together with `registered = false`. -/
theorem C4_counterexample :
    (⟨.roaming, 1, some baseIdentity⟩ : Metric) ∈ (collectModem "" c4Env).1 ∧
    (⟨.registered, 0, some baseIdentity⟩ : Metric) ∈ (collectModem "" c4Env).1 ∧
    (influxModem c4PushEnv).1.head? = some (Record.status c4Rec) ∧
    c4Rec.roaming = true ∧ c4Rec.registered = false := by decide

/-- C4 (amended): `roaming` reflects only the registration-state reading
and `registered` only the operational-state reading, so the claimed
implication holds exactly when the Roaming registration reading is
accompanied by an operational-state reading of Registered or Connected
(pull path) respectively at least Registered in the enum order (push
path); for those combinations an emitted `roaming = true` does come with
`registered = true`. -/
theorem C4_roaming_registered (st : MMState) (rs : RegState) :
    (pullRoamingVal rs = 1 →
      st.str = "Registered" ∨ st.str = "Connected" →
      pullRegisteredVal st = 1) ∧
    (decide (rs = RegState.roaming) = true →
      MMState.registered.val ≤ st.val → pushRegistered st = true) := by
  cases st <;> cases rs <;> decide

/-- Witness for C4 at the consistent combination (Roaming, Registered). -/
theorem C4_witness :
    pullRegisteredVal MMState.registered = 1 ∧
    pushRegistered MMState.registered = true :=
  ⟨(C4_roaming_registered .registered .roaming).1 (by decide)
      (Or.inl (by decide)),
   (C4_roaming_registered .registered .roaming).2 (by decide) (by decide)⟩

/-! ## C5 -/

/-- A push-path modem reporting the non-numeric operator code `"abc"`. -/
def c5Env : PushModemEnv := { basePush with opCode := some "abc" }

/-- The `modem_status` record `influxHandler` assembles for `c5Env`. -/
def c5Rec : StatusRecord := pushStatus (pushTags c5Env "icc1" "imsi1" "lte") c5Env

/-- C5 counterexample: on the push path a non-numeric operator code is
logged and then emitted as the substituted value `operatorcode=0` inside
the always-complete `modem_status` record — not omitted. -/
theorem C5_counterexample :
    c5Env.opCode = some "abc" ∧
    goParseInt10x32 "abc" = none ∧
    (influxModem c5Env).1.head? = some (Record.status c5Rec) ∧
    c5Rec.operatorcode = 0 := by decide

theorem filter_opcode_pullTail (L : Identity) (st2 : MMState)
    (m : PullModemEnv) (hfr : m.failedReasonOk = true)
    (hloc : m.locationOk = true) (hcl : m.currentLocOk = true)
    (rs : RegState) (hrs : m.regState = some rs) :
    ((pullTailMetrics L st2 m).1.filter (kindIs .operatorcode)) =
      match m.opCode with
      | none => []
      | some oc =>
        match goParseFloatInt? oc with
        | some v => [⟨.operatorcode, v, some L⟩]
        | none => [] := by
  unfold pullTailMetrics
  rw [hfr, hloc, hcl, hrs]
  simp only [Bool.not_true, Bool.false_eq_true, if_false]
  rcases m.opCode with _ | oc
  · simp [List.filter_append, filter_hexMetric_ne, kindIs]
  · rcases hpf : goParseFloatInt? oc with _ | v <;>
      simp [hpf, List.filter_append, filter_hexMetric_ne,
        filter_signalPhase_ne, kindIs]

/-- C5 (amended): the pull emitter omits the metric of a failed or
unparsable optional field — its `operatorcode` samples are exactly the
successful parses, absent when the read failed or the string was
non-numeric, and a failed state, location or registration-state read
aborts before the corresponding metric is emitted.  The push emitter's
`modem_status` record instead has a fixed shape: a failed or
non-numeric operator code is emitted as 0, a failed operational-state
read as `registered=false`, `connected=false`, `state="unknown"`, a
failed registration-state read as `roaming=false`,
`regstate="unknown"`, and a failed location read as empty strings. -/
theorem C5_field_absence :
    (∀ apn m L st1 st2 rs, m.state1 = some st1 →
      ¬(st1.str = "Disabled" ∧ (!m.enableOk) = true) →
      readIdentityPull m = some L → m.state2 = some st2 →
      m.failedReasonOk = true → m.locationOk = true →
      m.currentLocOk = true → m.regState = some rs →
      ((collectModem apn m).1.filter (kindIs .operatorcode)) =
        match m.opCode with
        | none => []
        | some oc =>
          match goParseFloatInt? oc with
          | some v => [⟨.operatorcode, v, some L⟩]
          | none => []) ∧
    (∀ t m, m.opCode = none → (pushStatus t m).operatorcode = 0) ∧
    (∀ t m oc, m.opCode = some oc → goParseInt10x32 oc = none →
      (pushStatus t m).operatorcode = 0) ∧
    (∀ t m, m.state = none → (pushStatus t m).registered = false ∧
      (pushStatus t m).connected = false ∧ (pushStatus t m).state = "unknown") ∧
    (∀ t m, m.regState = none → (pushStatus t m).roaming = false ∧
      (pushStatus t m).regstate = "unknown") ∧
    (∀ t m, m.currentLoc = none → (pushStatus t m).cellid = "" ∧
      (pushStatus t m).lacS = "" ∧ (pushStatus t m).tacS = "") := by
  refine ⟨?_, ?_, ?_, ?_, ?_, ?_⟩
  · intro apn m L st1 st2 rs h1 hen hid h2 hfr hloc hcl hrs
    rw [collectModem_reaches apn m L st1 st2 h1 hen hid h2]
    exact filter_opcode_pullTail L st2 m hfr hloc hcl rs hrs
  · intro t m h; simp [pushStatus, pushOpCodeInt, h]
  · intro t m oc h hp
    simp only [pushStatus, pushOpCodeInt, h]
    by_cases hoc : oc = ""
    · simp [hoc]
    · simp [hoc, hp]
  · intro t m h; simp [pushStatus, h]
  · intro t m h; simp [pushStatus, h]
  · intro t m h; simp [pushStatus, h]

/-- Witness for C5 on concrete modems: the pull collector with a
non-numeric operator code emits no `operatorcode` sample, and the push
record of a modem whose operator-code read failed carries the
substituted 0. -/
theorem C5_witness :
    ((collectModem "" { basePull with opCode := some "abc" }).1.filter
      (kindIs .operatorcode)) = [] ∧
    (pushStatus (pushTags basePush "icc1" "imsi1" "lte")
      { basePush with opCode := none }).operatorcode = 0 :=
  ⟨C5_field_absence.1 "" { basePull with opCode := some "abc" }
      baseIdentity .registered .registered .home (by decide) (by decide)
      (by decide) (by decide) (by decide) (by decide) (by decide) (by decide),
   C5_field_absence.2.1 (pushTags basePush "icc1" "imsi1" "lte")
      { basePush with opCode := none } (by decide)⟩

/-! ## C6 -/

theorem filter_enable_ops (st1 : MMState) :
    (pullEnableOps st1).filter isBearerOp = [] := by
  unfold pullEnableOps
  by_cases h : st1.str = "Disabled" <;> simp [h, isBearerOp]

theorem filter_signal_ops (L : Identity) (m : PullModemEnv) :
    ((pullSignalPhase L m).2).filter isBearerOp = [] := by
  rcases signalPhase_ops L m with h | h | h <;> rw [h] <;> rfl

theorem pullTail_ops (L : Identity) (st2 : MMState) (m : PullModemEnv) :
    (pullTailMetrics L st2 m).2 = [] ∨
      (pullTailMetrics L st2 m).2 = (pullSignalPhase L m).2 := by
  unfold pullTailMetrics
  cases m.failedReasonOk <;> cases m.locationOk <;> cases m.currentLocOk <;>
    rcases m.regState with _ | rs <;> rcases m.opCode with _ | oc <;> simp

theorem filter_tail_ops (L : Identity) (st2 : MMState) (m : PullModemEnv) :
    ((pullTailMetrics L st2 m).2).filter isBearerOp = [] := by
  rcases pullTail_ops L st2 m with h | h <;> rw [h]
  · rfl
  · exact filter_signal_ops L m

theorem reconcile_filter_bearer (apn : String) (st2 : MMState)
    (bs : List (Nat × Bool)) :
    (reconcileOps apn st2 bs).filter isBearerOp = reconcileOps apn st2 bs := by
  unfold reconcileOps
  by_cases h : st2.str = "Registered" ∧ apn ≠ ""
  · rw [if_pos h, List.filter_append]
    rw [List.filter_eq_self.mpr, List.filter_eq_self.mpr]
    · intro a ha
      simp only [List.mem_singleton] at ha
      rw [ha]; rfl
    · intro a ha
      rcases List.mem_flatMap.mp ha with ⟨b, _, hab⟩
      simp only [List.mem_cons, List.not_mem_nil, or_false] at hab
      rcases hab with h1 | h1 <;> rw [h1] <;> rfl
  · rw [if_neg h]; rfl

theorem reconcileOps_ne_nil (apn : String) (st2 : MMState)
    (bs : List (Nat × Bool)) :
    reconcileOps apn st2 bs ≠ [] ↔ (st2.str = "Registered" ∧ apn ≠ "") := by
  unfold reconcileOps
  by_cases h : st2.str = "Registered" ∧ apn ≠ "" <;> simp [h]

theorem regConn_mem_pullTail (L : Identity) (st2 : MMState)
    (m : PullModemEnv) :
    (⟨.registered, pullRegisteredVal st2, some L⟩ : Metric)
        ∈ (pullTailMetrics L st2 m).1 ∧
    (⟨.connected, pullConnectedVal st2, some L⟩ : Metric)
        ∈ (pullTailMetrics L st2 m).1 := by
  unfold pullTailMetrics
  cases m.failedReasonOk <;> cases m.locationOk <;> cases m.currentLocOk <;>
    rcases m.regState with _ | rs <;> rcases m.opCode with _ | oc <;>
      simp [List.mem_append]

/-- C6: for a pull-path modem that reaches the reconciliation point,
bearer operations occur iff the re-read state renders as `Registered`
and the APN configuration is non-empty; when invoked, the bearer
operations are exactly one disconnect followed by one delete per
existing bearer (a delete failure only skips that bearer — every bearer
still gets its pair) followed by exactly one connect with the configured
APN; and independently of the connect outcome, the registered/connected
gauges derived from the state read taken before the reconciliation are
emitted (the emitted metrics do not depend on the connect result at
all). -/
theorem C6_reconciler (apn : String) (m : PullModemEnv) (L : Identity)
    (st1 st2 : MMState) (h1 : m.state1 = some st1)
    (hen : ¬(st1.str = "Disabled" ∧ (!m.enableOk) = true))
    (hid : readIdentityPull m = some L) (h2 : m.state2 = some st2) :
    ((collectModem apn m).2.filter isBearerOp ≠ [] ↔
      (st2.str = "Registered" ∧ apn ≠ "")) ∧
    (st2.str = "Registered" → apn ≠ "" →
      (collectModem apn m).2.filter isBearerOp =
        (m.bearers.flatMap fun b =>
          [Op.disconnectBearer b.1, Op.deleteBearer b.1])
          ++ [Op.connect apn]) ∧
    ((⟨.registered, pullRegisteredVal st2, some L⟩ : Metric)
        ∈ (collectModem apn m).1) ∧
    ((⟨.connected, pullConnectedVal st2, some L⟩ : Metric)
        ∈ (collectModem apn m).1) ∧
    (collectModem apn { m with connectOk := false }).1
        = (collectModem apn m).1 := by
  rw [collectModem_reaches apn m L st1 st2 h1 hen hid h2]
  have hfil : ((pullEnableOps st1 ++ (reconcileOps apn st2 m.bearers
      ++ (pullTailMetrics L st2 m).2)).filter isBearerOp)
      = reconcileOps apn st2 m.bearers := by
    rw [List.filter_append, List.filter_append, filter_enable_ops,
      reconcile_filter_bearer, filter_tail_ops]
    simp
  refine ⟨?_, ?_, (regConn_mem_pullTail L st2 m).1,
    (regConn_mem_pullTail L st2 m).2, ?_⟩
  · rw [show pullEnableOps st1 ++ reconcileOps apn st2 m.bearers
      ++ (pullTailMetrics L st2 m).2 = pullEnableOps st1
      ++ (reconcileOps apn st2 m.bearers ++ (pullTailMetrics L st2 m).2)
      from List.append_assoc _ _ _, hfil]
    exact reconcileOps_ne_nil apn st2 m.bearers
  · intro hr ha
    rw [show pullEnableOps st1 ++ reconcileOps apn st2 m.bearers
      ++ (pullTailMetrics L st2 m).2 = pullEnableOps st1
      ++ (reconcileOps apn st2 m.bearers ++ (pullTailMetrics L st2 m).2)
      from List.append_assoc _ _ _, hfil]
    unfold reconcileOps
    rw [if_pos ⟨hr, ha⟩]
  · rw [collectModem_reaches apn { m with connectOk := false } L st1 st2
      h1 hen hid h2]
    rfl

/-- Witness for C6 at the spec's scenario: state `Registered`, APN
`"internet"`, two existing bearers (the second with a failing delete), a
failing connect — both bearers are disconnected and deleted, one connect
is attempted, and `registered = 1` is still emitted from the
pre-reconciliation state read. -/
theorem C6_witness :
    ((collectModem "internet" { basePull with connectOk := false }).2.filter
      isBearerOp)
      = [Op.disconnectBearer 0, Op.deleteBearer 0, Op.disconnectBearer 1,
         Op.deleteBearer 1, Op.connect "internet"] ∧
    (⟨.registered, 1, some baseIdentity⟩ : Metric)
      ∈ (collectModem "internet" { basePull with connectOk := false }).1 := by
  have h := C6_reconciler "internet" { basePull with connectOk := false }
    baseIdentity .registered .registered (by decide) (by decide) (by decide)
    (by decide)
  exact ⟨h.2.1 (by decide) (by decide), h.2.2.1⟩

/-! ## C7 -/

/-- A pull-path modem whose `Setup(1)` succeeds and whose
`GetCurrentSignals` read fails. -/
def c7Env : PullModemEnv := { basePull with signals := none }

/-- A pull-path modem whose signal read returns two samples and whose
`Setup(0)` teardown fails. -/
def c7bEnv : PullModemEnv :=
  { basePull with
    signals := some [(-60, -90), (-61, -91)]
    setupDisableOk := false }

/-- A push-path modem whose gsm and lte reads both fail and whose
`Setup(0)` teardown fails. -/
def c7pEnv : PushModemEnv :=
  { basePush with gsm := none, lte := none, setupDisableOk := false }

/-- C7: evaluation at the failing input.  On the pull path, after a
successful `Setup(1)`, a failed `GetCurrentSignals` hits a bare
`continue` (line 351) and the trace ends without the `Setup(0)`
teardown — the modem is left in extended-reporting mode, contradicting
the spec's scoped-acquisition requirement.  The remaining conjuncts show
the surrounding behaviour is as specified: when the read succeeds and
only the teardown fails, both samples are still emitted and the teardown
call was made (pull), and the push path runs its teardown even when both
signal reads fail. -/
theorem C7_teardown_evaluation :
    c7Env.setupEnableOk = true ∧ c7Env.signals = none ∧
    (collectModem "" c7Env).2 = [Op.signalSetup 1] ∧
    c7bEnv.setupDisableOk = false ∧
    ((collectModem "" c7bEnv).1.filter (kindIs .rssi))
      = [⟨.rssi, -60, some baseIdentity⟩, ⟨.rssi, -61, some baseIdentity⟩] ∧
    (collectModem "" c7bEnv).2 = [Op.signalSetup 1, Op.signalSetup 0] ∧
    (influxModem c7pEnv).2 = [Op.signalSetup 1, Op.signalSetup 0] := by
  decide

/-! ## C9 -/

theorem readIdentityPull_none_of_rat (m : PullModemEnv) (rl : List String)
    (h : m.ratList = some rl) (hlen : rl.length ≠ 1) :
    readIdentityPull m = none := by
  unfold readIdentityPull
  rcases rl with _ | ⟨t, ts⟩
  · cases hso : m.simOk <;> rcases m.simIdent with _ | icc <;>
      rcases m.simImsi with _ | imsi <;>
      rcases m.simOpIdent with _ | opid <;>
      rcases m.simOp with _ | opn <;> cases hg3 : m.g3gppOk <;>
      rcases m.imei with _ | imei <;>
      rcases m.opName with _ | von <;> simp_all
  · rcases ts with _ | ⟨t2, ts2⟩
    · exact absurd rfl hlen
    · cases hso : m.simOk <;> rcases m.simIdent with _ | icc <;>
        rcases m.simImsi with _ | imsi <;>
        rcases m.simOpIdent with _ | opid <;>
        rcases m.simOp with _ | opn <;> cases hg3 : m.g3gppOk <;>
        rcases m.imei with _ | imei <;>
        rcases m.opName with _ | von <;> simp_all

/-- C9: on the legacy pull path an access-technology list of any
cardinality other than exactly 1 is a hard failure that skips the modem
(no metric emitted); on the richer push path an empty list yields the
empty RAT string, two or more entries use the lowercased first entry
with the extras dropped, and in either case the modem's records are
still assembled and emitted — no error is raised to the caller. -/
theorem C9_rat_cardinality :
    (∀ apn m rl, m.ratList = some rl → rl.length ≠ 1 →
      (collectModem apn m).1 = []) ∧
    pushRat [] = "" ∧
    (∀ t ts, pushRat (t :: ts) = goToLower t) ∧
    (∀ m icc imsi rl, m.g3gppOk = true → m.simOk = true →
      m.simIdent = some icc → m.simImsi = some imsi → m.ratList = some rl →
      (influxModem m).1 =
        Record.status (pushStatus (pushTags m icc imsi (pushRat rl)) m)
          :: (pushSignalRecords (pushTags m icc imsi (pushRat rl)) m).1
          ++ pushBearerRecords (pushTags m icc imsi (pushRat rl)) m.bearers) := by
  refine ⟨?_, rfl, fun t ts => rfl, ?_⟩
  · intro apn m rl h hlen
    exact collectModem_metrics_nil_of_id_none apn m
      (readIdentityPull_none_of_rat m rl h hlen)
  · intro m icc imsi rl hg hs hi hm2 hr
    simp only [influxModem, hg, hs, hi, hm2, hr, Bool.not_true,
      Bool.false_eq_true, if_false]

/-- A push-path modem reporting two access technologies. -/
def c9Push : PushModemEnv := { basePush with ratList := some ["Lte", "Gsm"] }

/-- Witness for C9: a two-entry list skips the modem on the pull path,
while on the push path it yields `rat = "lte"` (second entry dropped)
and the records are still emitted. -/
theorem C9_witness :
    (collectModem "" { basePull with ratList := some ["Lte", "Gsm"] }).1
      = [] ∧
    pushRat ["Lte", "Gsm"] = "lte" ∧
    (influxModem c9Push).1 =
      Record.status
          (pushStatus (pushTags c9Push "icc1" "imsi1" (pushRat ["Lte", "Gsm"]))
            c9Push)
        :: (pushSignalRecords
            (pushTags c9Push "icc1" "imsi1" (pushRat ["Lte", "Gsm"])) c9Push).1
        ++ pushBearerRecords
            (pushTags c9Push "icc1" "imsi1" (pushRat ["Lte", "Gsm"]))
            c9Push.bearers :=
  ⟨C9_rat_cardinality.1 "" { basePull with ratList := some ["Lte", "Gsm"] }
      ["Lte", "Gsm"] rfl (by decide),
   by rw [C9_rat_cardinality.2.2.1 "Lte" ["Gsm"]]; decide,
   C9_rat_cardinality.2.2.2 c9Push "icc1" "imsi1" ["Lte", "Gsm"]
      rfl rfl rfl rfl rfl⟩

end ModemExporter
